import Mathlib

/-!
Verification of the view-synchronization and session-state engine of the
personal scheduling assistant frontend (calendar grid construction, per-day
event indexing, range-load cancellation, and the chat session controller).

Dates are embedded at day granularity: a calendar day is the integer number
of days since the Unix epoch (1970-01-01, which was a Thursday, so its JS
getDay() value is 4).  All the cited source operations (startOfDay,
startOfWeek, addDays, the 42-cell grid) work at exactly this granularity.
-/

namespace SmartAssistant

/-- JS Date.prototype.getDay for a day number: 0 = Sunday .. 6 = Saturday.
Day 0 (1970-01-01) was a Thursday, hence the +4 offset.  Int `%` is
Euclidean mod, so the result is always in 0..6, matching JS getDay on a
valid date. -/
def jsGetDay (d : Int) : Int := (d + 4) % 7

/-- The diff computed by startOfWeek in Calendar.tsx:
`weekStartsOn === 1 ? (day === 0 ? 6 : day - 1) : day`. -/
def weekStartDiff (day : Int) (weekStartsOn : Nat) : Int :=
  if weekStartsOn = 1 then (if day = 0 then 6 else day - 1) else day

/-- Embeds startOfWeek from Calendar.tsx: computes the JS weekday of the
(already day-normalized) date and subtracts the Monday/Sunday shift. -/
def startOfWeek (d : Int) (weekStartsOn : Nat) : Int :=
  d - weekStartDiff (jsGetDay d) weekStartsOn

/-- Embeds the days memo of Calendar.tsx: a 42-cell array whose i-th entry is
addDays(gridStart, i) with gridStart = startOfWeek(startOfMonth(viewDate), ws).
The first-of-month day number is taken as the input. -/
def monthGridDays (firstOfMonth : Int) (weekStartsOn : Nat) : List Int :=
  (List.range 42).map (fun (i : Nat) => startOfWeek firstOfMonth weekStartsOn + (i : Int))

lemma countP_range_single (n t : Nat) (h : t < n) :
    (List.range n).countP (fun i => decide (i = t)) = 1 := by
  induction n with
  | zero => omega
  | succ n ih =>
    rw [List.range_succ, List.countP_append]
    by_cases hc : t < n
    · rw [ih hc]
      have hz : (List.countP (fun i => decide (i = t)) [n]) = 0 := by
        simp only [List.countP_cons, List.countP_nil]
        have : ¬ (n = t) := by omega
        simp [this]
      omega
    · have ht : t = n := by omega
      subst ht
      have hz : (List.range t).countP (fun i => decide (i = t)) = 0 := by
        rw [List.countP_eq_zero]
        intro a ha
        have := List.mem_range.mp ha
        simp only [decide_eq_true_eq]
        omega
      rw [hz]
      simp [List.countP_cons]

lemma countP_map_range (anchor today : Int) (n : Nat) :
    ((List.range n).map (fun (i : Nat) => anchor + (i : Int))).countP
        (fun d => decide (d = today))
      = (List.range n).countP (fun (i : Nat) => decide (anchor + (i : Int) = today)) := by
  induction n with
  | zero => rfl
  | succ n ih =>
    rw [List.range_succ, List.map_append, List.countP_append, List.countP_append, ih]
    simp [List.countP_cons]

lemma countP_grid_eq_one (anchor today : Int)
    (h1 : anchor ≤ today) (h2 : today < anchor + 42) :
    ((List.range 42).map (fun (i : Nat) => anchor + (i : Int))).countP
      (fun d => decide (d = today)) = 1 := by
  rw [countP_map_range]
  have hfun : (fun (i : Nat) => decide (anchor + (i : Int) = today))
      = (fun (i : Nat) => decide (i = (today - anchor).toNat)) := by
    funext i
    simp only [decide_eq_decide]
    omega
  rw [hfun]
  exact countP_range_single 42 _ (by omega)

/-- Claim C3: for every viewed month and both week-start settings, the month
grid is exactly 42 consecutive days anchored at
firstOfMonth - ((weekday(firstOfMonth) + 6) mod 7) for Monday start and
firstOfMonth - weekday(firstOfMonth) for Sunday start, and when today lies in
the 42-day window exactly one cell is today (isToday is isSameDay with today,
i.e. equality of day numbers). -/
theorem month_grid_spec :
    (∀ d : Int, startOfWeek d 1 = d - ((jsGetDay d + 6) % 7)) ∧
    (∀ d : Int, startOfWeek d 0 = d - jsGetDay d) ∧
    (∀ (fom : Int) (ws : Nat), (monthGridDays fom ws).length = 42) ∧
    (∀ (fom : Int) (ws : Nat) (i : Nat), i < 42 →
        (monthGridDays fom ws).getD i 0 = startOfWeek fom ws + (i : Int)) ∧
    (∀ (fom today : Int) (ws : Nat),
        startOfWeek fom ws ≤ today → today < startOfWeek fom ws + 42 →
        (monthGridDays fom ws).countP (fun d => decide (d = today)) = 1) := by
  refine ⟨?_, ?_, ?_, ?_, ?_⟩
  · intro d
    show d - (if (d + 4) % 7 = 0 then 6 else (d + 4) % 7 - 1)
        = d - (((d + 4) % 7 + 6) % 7)
    split <;> omega
  · intro d
    simp [startOfWeek, weekStartDiff]
  · intro fom ws
    simp [monthGridDays]
  · intro fom ws i hi
    simp only [monthGridDays]
    rw [List.getD_eq_getElem?_getD, List.getElem?_map, List.getElem?_range hi]
    rfl
  · intro fom today ws h1 h2
    exact countP_grid_eq_one _ _ h1 h2

/-- Witness for month_grid_spec: February 2025 (first of month = day 20120,
a Saturday), Monday start; today = day 20130 lies in the window and is
counted exactly once; cell 3 is anchor + 3. -/
theorem month_grid_spec_witness :
    (monthGridDays 20120 1).countP (fun d => decide (d = 20130)) = 1 ∧
    (monthGridDays 20120 1).getD 3 0 = startOfWeek 20120 1 + 3 :=
  ⟨month_grid_spec.2.2.2.2 20120 20130 1 (by decide) (by decide),
   month_grid_spec.2.2.2.1 20120 1 3 (by decide)⟩

/-!
Event indexing (Calendar.tsx eventsByDay memo).  A parsed JS Date value is
either a valid local calendar date or the Invalid Date produced when
`new Date(string)` fails to parse; on an Invalid Date, getFullYear /
getMonth / getDate all return NaN, so the template string built by ymd
reads "NaN-NaN-NaN" (String(NaN).padStart(2, "0") leaves "NaN" unchanged).
-/

/-- Result of toDate(ev.start): a valid local date (getFullYear, getMonth
0-11, getDate 1-31) or JS Invalid Date. -/
inductive JSDate where
  | valid (year : Int) (month : Nat) (day : Nat)
  | invalid
deriving DecidableEq, Repr

/-- JS String.prototype.padStart(2, "0"): prepend zeros up to length 2. -/
def padStart2 (s : String) : String :=
  if s.length ≥ 2 then s else String.mk (List.replicate (2 - s.length) '0') ++ s

/-- Embeds ymd from Calendar.tsx: the DayKey
`${getFullYear()}-${String(getMonth()+1).padStart(2,"0")}-${String(getDate()).padStart(2,"0")}`;
on Invalid Date every field is NaN and the key is "NaN-NaN-NaN". -/
def ymd : JSDate → String
  | .valid y m d =>
      toString y ++ "-" ++ padStart2 (toString (m + 1)) ++ "-" ++ padStart2 (toString d)
  | .invalid => "NaN-NaN-NaN"

/-- Embeds the CalEvent type of Calendar.tsx; start holds the result of
toDate(ev.start).  The optional end/where/description fields and the
attendee list are carried but unused by indexing. -/
structure CalEvent where
  id : String
  title : String
  start : JSDate
  endTime : Option JSDate := none
  whereAt : Option String := none
  description : Option String := none
  attendees : List String := []
deriving DecidableEq, Repr

/-- One step of the eventsByDay loop: push ev under key k, mirroring
`if (!map.has(d)) map.set(d, []); map.get(d)!.push(ev)` on a JS Map
(one entry per key, insertion order preserved). -/
def insertAt (m : List (String × List CalEvent)) (k : String) (ev : CalEvent) :
    List (String × List CalEvent) :=
  match m with
  | [] => [(k, [ev])]
  | (k1, l) :: rest =>
      if k1 = k then (k1, l ++ [ev]) :: rest else (k1, l) :: insertAt rest k ev

/-- Embeds the eventsByDay memo of Calendar.tsx: fold the event list into a
Map from DayKey of the start time to the events of that day. -/
def eventsByDay (events : List CalEvent) : List (String × List CalEvent) :=
  events.foldl (fun m ev => insertAt m (ymd ev.start) ev) []

/-- Embeds `map.get(key) ?? []`. -/
def bucket : List (String × List CalEvent) → String → List CalEvent
  | [], _ => []
  | (k1, l) :: rest, k => if k1 = k then l else bucket rest k

/-- All bucket contents of the index, in key insertion order. -/
def joinBuckets (m : List (String × List CalEvent)) : List CalEvent :=
  (m.map Prod.snd).flatten

lemma bucket_insertAt (m : List (String × List CalEvent)) (k k2 : String) (ev : CalEvent) :
    bucket (insertAt m k ev) k2 = bucket m k2 ++ (if k = k2 then [ev] else []) := by
  induction m with
  | nil =>
    by_cases h : k = k2 <;> simp [insertAt, bucket, h]
  | cons p rest ih =>
    obtain ⟨k1, l⟩ := p
    by_cases h1 : k1 = k
    · subst h1
      by_cases h2 : k1 = k2
      · subst h2
        simp [insertAt, bucket]
      · simp [insertAt, bucket, h2]
    · by_cases h2 : k1 = k2
      · subst h2
        have hk : ¬ k = k1 := fun h => h1 h.symm
        simp [insertAt, bucket, h1, hk]
      · simp [insertAt, bucket, h1, h2, ih]

lemma bucket_foldl (evs : List CalEvent) (m : List (String × List CalEvent)) (k : String) :
    bucket (evs.foldl (fun m ev => insertAt m (ymd ev.start) ev) m) k
      = bucket m k ++ evs.filter (fun e => decide (ymd e.start = k)) := by
  induction evs generalizing m with
  | nil => simp
  | cons e es ih =>
    simp only [List.foldl_cons, List.filter_cons]
    rw [ih, bucket_insertAt]
    by_cases h : ymd e.start = k
    · simp [h, List.append_assoc]
    · simp [h]

lemma joinBuckets_insertAt (m : List (String × List CalEvent)) (k : String) (ev : CalEvent) :
    (joinBuckets (insertAt m k ev)).Perm (ev :: joinBuckets m) := by
  induction m with
  | nil => simp [insertAt, joinBuckets]
  | cons p rest ih =>
    obtain ⟨k1, l⟩ := p
    by_cases h1 : k1 = k
    · subst h1
      have hEq : joinBuckets (insertAt ((k1, l) :: rest) k1 ev)
          = l ++ (ev :: joinBuckets rest) := by
        simp [insertAt, joinBuckets]
      have hEq2 : joinBuckets ((k1, l) :: rest) = l ++ joinBuckets rest := by
        simp [joinBuckets]
      rw [hEq, hEq2]
      exact List.perm_middle
    · have hEq : joinBuckets (insertAt ((k1, l) :: rest) k ev)
          = l ++ joinBuckets (insertAt rest k ev) := by
        simp [insertAt, joinBuckets, h1]
      have hEq2 : joinBuckets ((k1, l) :: rest) = l ++ joinBuckets rest := by
        simp [joinBuckets]
      rw [hEq, hEq2]
      exact ((ih).append_left l).trans List.perm_middle

lemma joinBuckets_foldl (evs : List CalEvent) (m : List (String × List CalEvent)) :
    (joinBuckets (evs.foldl (fun m ev => insertAt m (ymd ev.start) ev) m)).Perm
      (joinBuckets m ++ evs) := by
  induction evs generalizing m with
  | nil => simp
  | cons e es ih =>
    simp only [List.foldl_cons]
    have h1 := ih (insertAt m (ymd e.start) e)
    have h2 : (joinBuckets (insertAt m (ymd e.start) e) ++ es).Perm
        ((e :: joinBuckets m) ++ es) :=
      (joinBuckets_insertAt m (ymd e.start) e).append_right es
    have h3 : ((e :: joinBuckets m) ++ es).Perm (joinBuckets m ++ (e :: es)) := by
      simpa using (List.perm_middle).symm
    exact (h1.trans h2).trans h3

/-- Claim C4: the event index places every event in exactly one bucket keyed
by the DayKey of its start time: the bucket of key k is precisely the input
filtered to the events whose key is k (which also preserves the input's
relative order inside each bucket), and the union of all bucket contents is a
permutation of the input, so no event is duplicated or lost. -/
theorem eventsByDay_partition (evs : List CalEvent) :
    (∀ k, bucket (eventsByDay evs) k = evs.filter (fun e => decide (ymd e.start = k))) ∧
    (joinBuckets (eventsByDay evs)).Perm evs := by
  constructor
  · intro k
    have h := bucket_foldl evs [] k
    simpa [bucket] using h
  · have h := joinBuckets_foldl evs []
    simpa [joinBuckets] using h

/-- A concrete event whose start value failed to parse as a valid instant
(toDate produced Invalid Date). -/
def badStartEvent : CalEvent :=
  { id := "e1", title := "Broken", start := JSDate.invalid }

/-- Counterexample to claim C6: indexing a collection containing an event
with an unparseable start does not exclude that event from every bucket —
it lands in the bucket keyed "NaN-NaN-NaN" (the DayKey ymd computes on an
Invalid Date), and no diagnostic is reported anywhere in eventsByDay. -/
theorem malformed_event_not_excluded :
    bucket (eventsByDay [badStartEvent]) "NaN-NaN-NaN" = [badStartEvent] := by
  decide

/-- Claim C6 as amended: the indexing operation is total (never crashes), but
an event whose start fails to parse is not excluded and not reported: it is
bucketed under the invalid key "NaN-NaN-NaN" like any other event, while all
well-formed events in the same collection are still indexed normally under
the DayKey of their start time. -/
theorem malformed_event_indexed (evs : List CalEvent) (ev : CalEvent)
    (hmem : ev ∈ evs) :
    ev ∈ bucket (eventsByDay evs) (ymd ev.start) ∧
    (ev.start = JSDate.invalid → ymd ev.start = "NaN-NaN-NaN") := by
  constructor
  · have h := bucket_foldl evs [] (ymd ev.start)
    have hb : bucket (eventsByDay evs) (ymd ev.start)
        = evs.filter (fun e => decide (ymd e.start = ymd ev.start)) := by
      simpa [bucket, eventsByDay] using h
    rw [hb]
    exact List.mem_filter.mpr ⟨hmem, by simp⟩
  · intro h
    rw [h]
    rfl

/-- Witness for malformed_event_indexed: a two-event collection with one
well-formed and one malformed event; both land in the bucket of their key. -/
theorem malformed_event_indexed_witness :
    badStartEvent ∈ bucket (eventsByDay
        [{ id := "e0", title := "Fine", start := JSDate.valid 2025 0 15 }, badStartEvent])
      (ymd badStartEvent.start) ∧
    (badStartEvent.start = JSDate.invalid → ymd badStartEvent.start = "NaN-NaN-NaN") :=
  malformed_event_indexed
    [{ id := "e0", title := "Fine", start := JSDate.valid 2025 0 15 }, badStartEvent]
    badStartEvent (by decide)

/-!
Id synthesis for events arriving without an id.
-/

/-- Embeds ensureId from Calendar.tsx.  The JS function returns the incoming
id when it is a non-empty string; otherwise, when crypto.randomUUID is
available (cryptoAvailable), it returns crypto.randomUUID() — modelled by
the randomUUIDValue parameter, the value the random generator happened to
produce on this run; only when crypto is unavailable does it fall back to
the deterministic string built from the ordinal index and the start-time
seed. -/
def ensureId (id : Option String) (fallbackSeed : String) (index : Nat)
    (cryptoAvailable : Bool) (randomUUIDValue : String) : String :=
  match id with
  | some s =>
      if s ≠ "" then s
      else if cryptoAvailable then randomUUIDValue
      else "event_" ++ toString index ++ "_" ++ fallbackSeed
  | none =>
      if cryptoAvailable then randomUUIDValue
      else "event_" ++ toString index ++ "_" ++ fallbackSeed

/-- Embeds the id synthesis of formatEvent in home.tsx:
`ev.id ?? (ev.title + "-" + ev.start_time)` (nullish coalescing, so an empty
string id is kept as-is). -/
def formatEventId (id : Option String) (title startTime : String) : String :=
  match id with
  | some s => s
  | none => title ++ "-" ++ startTime

/-- Counterexample to claim C5: the id synthesized by Calendar.tsx's ensureId
for an event without an id is not a deterministic function of the event's
start time and ordinal position — with crypto.randomUUID available (the
normal browser case) it is the random UUID, so two runs over the same
fetched event differing only in the random draw assign different ids. -/
theorem ensureId_depends_on_random :
    ensureId none "2025-01-01T10:00:00Z" 0 true "b7f0d2c4-aaaa"
      ≠ ensureId none "2025-01-01T10:00:00Z" 0 true "3a9e51ff-bbbb" := by
  decide

/-- Claim C5 as amended: only the no-crypto fallback path of ensureId is
deterministic — there the id does not depend on the random draw and equals
the string built from the ordinal index and the start-time seed — while
home.tsx's formatEvent always synthesizes its fallback id deterministically
from the title and the start time (not from the ordinal position). -/
theorem ensureId_fallback_deterministic :
    (∀ (seed : String) (i : Nat) (u v : String),
        ensureId none seed i false u = ensureId none seed i false v) ∧
    (∀ (seed : String) (i : Nat) (u : String),
        ensureId none seed i false u = "event_" ++ toString i ++ "_" ++ seed) ∧
    (∀ (title startTime : String),
        formatEventId none title startTime = title ++ "-" ++ startTime) := by
  refine ⟨?_, ?_, ?_⟩
  · intro seed i u v
    rfl
  · intro seed i u
    rfl
  · intro title startTime
    rfl

/-!
Chat session controller.  Two code paths exist in the repository:
the Chatbot component (chatbot.tsx) with its local formatChatReply over the
validated payload of chat-api.ts, and the home-dashboard ChatWidget
(home.tsx) over lib/chat's sendChatMessage / formatChatReply.
-/

/-- JS String.prototype.trim: strips leading and trailing whitespace.
Modelled executably over the character list so that concrete inputs
evaluate inside proofs. -/
def jsTrim (s : String) : String :=
  String.mk (((s.data.dropWhile Char.isWhitespace).reverse.dropWhile
    Char.isWhitespace).reverse)

/-- Message sender role. -/
inductive Sender where
  | user
  | bot
deriving DecidableEq, Repr

/-- Embeds the Msg type of chatbot.tsx. -/
structure Msg where
  id : Nat
  sender : Sender
  text : String
deriving DecidableEq, Repr

/-- Embeds the validated ChatResponsePayload of chat-api.ts (after
requestChatReply has enforced that message and conversation_id are strings
and coerced success / requires_confirmation with Boolean()).  The opaque
data record and the timestamp are unused by the controller and omitted. -/
structure ChatResponsePayload where
  message : String
  success : Bool
  conversation_id : String
  suggestions : Option (List String) := none
  requires_confirmation : Bool := false
  agent_actions : Option (List String) := none
deriving DecidableEq, Repr

/-- The confirmation-needed notice pushed by both formatChatReply variants. -/
def confirmationNotice : String :=
  "The agent needs your confirmation to finish this request."

/-- The problem notice pushed when the backend signals success = false. -/
def problemNotice : String :=
  "The agent reported a problem while processing your request."

/-- The suggestions piece: Suggestions plus the comma-joined list. -/
def suggestionsLine (l : List String) : String :=
  "Suggestions: " ++ String.intercalate ", " l

/-- The agent-actions piece pushed only by the lib/chat variant. -/
def agentActionsLine (l : List String) : String :=
  "Agent actions: " ++ String.intercalate ", " l

/-- Embeds formatChatReply of chatbot.tsx: pieces = [message], plus the
confirmation notice when requires_confirmation, plus the suggestions line
when suggestions is present and non-empty, plus the problem notice when not
success; empty pieces are dropped (filter(Boolean)) and the rest joined with
a blank line. -/
def formatChatReply (r : ChatResponsePayload) : String :=
  let pieces : List String :=
    [r.message]
    ++ (if r.requires_confirmation then [confirmationNotice] else [])
    ++ (match r.suggestions with
        | some l => if l.length > 0 then [suggestionsLine l] else []
        | none => [])
    ++ (if r.success then [] else [problemNotice])
  String.intercalate "\n\n" (pieces.filter (fun p => p ≠ ""))

/-- Embeds the ChatApiResponse type of lib/chat: every field except success
may be absent from the JSON. -/
structure ChatApiResponse where
  message : Option String := none
  success : Bool
  conversation_id : Option String := none
  suggestions : Option (List String) := none
  requires_confirmation : Option Bool := none
  agent_actions : Option (List String) := none
deriving DecidableEq, Repr

/-- Embeds formatChatReply of lib/chat (part_004): substitutes a placeholder
when the primary message is absent or blank, and additionally pushes an
agent-actions piece between the suggestions piece and the problem notice. -/
def libFormatChatReply (r : ChatApiResponse) : String :=
  let mainMessage : String :=
    match r.message with
    | some s => if (jsTrim s).length > 0 then s else "The agent did not return any message."
    | none => "The agent did not return any message."
  let pieces : List String :=
    [mainMessage]
    ++ (if r.requires_confirmation.getD false then [confirmationNotice] else [])
    ++ (match r.suggestions with
        | some l => if l.length > 0 then [suggestionsLine l] else []
        | none => [])
    ++ (match r.agent_actions with
        | some l => if l.length > 0 then [agentActionsLine l] else []
        | none => [])
    ++ (if r.success then [] else [problemNotice])
  String.intercalate "\n\n" (pieces.filter (fun p => p ≠ ""))

/-- The composition the claim and the spec describe, written from their
words: the displayed text is, in order, the primary reply text, a
confirmation-needed notice exactly when the backend signals
requires_confirmation, a suggestions list exactly when suggestions are
present and non-empty, and a problem notice exactly when success = false
(pieces joined as display text, blank pieces contributing nothing). -/
def specComposedReply (message : String) (requiresConfirmation : Bool)
    (suggestions : Option (List String)) (success : Bool) : String :=
  let pieces : List String :=
    [message]
    ++ (if requiresConfirmation then [confirmationNotice] else [])
    ++ (match suggestions with
        | some l => if l ≠ [] then [suggestionsLine l] else []
        | none => [])
    ++ (if success then [] else [problemNotice])
  String.intercalate "\n\n" (pieces.filter (fun p => p ≠ ""))

/-- A successful backend response carrying agent_actions, as delivered to the
home-dashboard widget. -/
def agentActionsResponse : ChatApiResponse :=
  { message := some "Done", success := true, conversation_id := some "abc123",
    agent_actions := some ["created event"] }

/-- Counterexample to claim C8: for the home-dashboard path the appended
assistant text is not the claimed four-piece composition — on a successful
response with agent_actions, lib/chat's formatChatReply inserts an extra
Agent actions piece, so the text differs from the claimed composition
(which here is exactly "Done"). -/
theorem formatChatReply_extra_piece :
    libFormatChatReply agentActionsResponse ≠ specComposedReply "Done" false none true := by
  decide

/-- Claim C8 as amended: chatbot.tsx's formatChatReply is exactly the claimed
four-piece composition for every response; lib/chat's variant agrees with it
whenever the primary message is present and non-blank and agent_actions is
absent or empty, but inserts an Agent actions piece before the problem notice
otherwise; in both variants the response with message "Done", success true
and no extras composes to exactly "Done". -/
theorem formatChatReply_composition :
    (∀ r : ChatResponsePayload,
        formatChatReply r
          = specComposedReply r.message r.requires_confirmation r.suggestions r.success) ∧
    (∀ r : ChatApiResponse, ∀ m : String,
        r.message = some m → 0 < (jsTrim m).length →
        (r.agent_actions = none ∨ r.agent_actions = some []) →
        libFormatChatReply r
          = specComposedReply m (r.requires_confirmation.getD false) r.suggestions r.success) ∧
    formatChatReply { message := "Done", success := true, conversation_id := "abc123" }
      = "Done" ∧
    libFormatChatReply { message := some "Done", success := true } = "Done" := by
  refine ⟨?_, ?_, ?_, ?_⟩
  · intro r
    simp only [formatChatReply, specComposedReply]
    cases hs : r.suggestions with
    | none => rfl
    | some l =>
      cases l with
      | nil => rfl
      | cons a as => simp
  · intro r m hm hblank hact
    simp only [libFormatChatReply, specComposedReply, hm]
    simp only [if_pos hblank]
    rcases hact with h | h <;> rw [h] <;>
      (cases hs : r.suggestions with
       | none => simp
       | some l => cases l with
         | nil => simp
         | cons a as => simp)
  · decide
  · decide

/-- Witness for formatChatReply_composition: the lib variant on a concrete
response with a message, a suggestion and no agent actions matches the
claimed composition. -/
theorem formatChatReply_composition_witness :
    libFormatChatReply
        { message := some "Sure", success := false, suggestions := some ["retry"] }
      = specComposedReply "Sure" false (some ["retry"]) false :=
  formatChatReply_composition.2.1
    { message := some "Sure", success := false, suggestions := some ["retry"] }
    "Sure" rfl (by decide) (Or.inl rfl)

/-!
Chat session state machine, from the Chatbot component (chatbot.tsx) and the
chat-api request builder.  handleSend splits into the synchronous dispatch
prefix (guard, optimistic user-message append, input clear, sending flag)
and the asynchronous resolution (try / catch / finally around
requestChatReply).
-/

/-- Embeds the outbound ChatRequestPayload of chat-api.ts lines 48-55:
conversation_id is attached only when the stored token is truthy
(present and non-empty). -/
structure ChatRequestPayload where
  message : String
  user_id : String
  conversation_id : Option String := none
deriving DecidableEq, Repr

/-- Embeds the payload construction of requestChatReply:
`payload = { message, user_id }; if (conversationId) payload.conversation_id
= conversationId`. -/
def buildChatPayload (message userId : String) (conversationId : Option String) :
    ChatRequestPayload :=
  { message := message, user_id := userId,
    conversation_id :=
      match conversationId with
      | some c => if c ≠ "" then some c else none
      | none => none }

/-- Embeds the Chatbot component state: messages, input, isSending,
conversationId. -/
structure ChatState where
  messages : List Msg
  input : String
  isSending : Bool
  conversationId : Option String := none
deriving DecidableEq, Repr

/-- Embeds the synchronous prefix of handleSend in chatbot.tsx: trim the
input; if the trimmed text is empty or a send is already in flight, return
with no state change and no outbound request; otherwise append the
optimistic user message, clear the input, set isSending, and issue the
request built by requestChatReply (now is the Date.now() message id). -/
def handleSendDispatch (s : ChatState) (now : Nat) (userId : String) :
    ChatState × Option ChatRequestPayload :=
  let text := jsTrim s.input
  if text = "" ∨ s.isSending = true then (s, none)
  else
    ({ s with
        messages := s.messages ++ [{ id := now, sender := Sender.user, text := text }],
        input := "",
        isSending := true },
     some (buildChatPayload text userId s.conversationId))

/-- The resolution of a dispatched send: requestChatReply either returns a
validated payload or throws (network error, non-2xx, malformed response),
in which case the catch receives the error message. -/
inductive ChatOutcome where
  | success (r : ChatResponsePayload)
  | failure (errMsg : String)
deriving DecidableEq, Repr

/-- Embeds the try / catch / finally tail of handleSend in chatbot.tsx:
on success store the returned conversation_id, append the formatted reply as
one bot message; on failure append one bot message prefixed with the error
marker; in both cases the finally block clears isSending. -/
def applyChatResolution (s : ChatState) (now : Nat) (o : ChatOutcome) : ChatState :=
  match o with
  | ChatOutcome.success r =>
      { s with
          conversationId := some r.conversation_id,
          messages := s.messages ++
            [{ id := now, sender := Sender.bot, text := formatChatReply r }],
          isSending := false }
  | ChatOutcome.failure m =>
      { s with
          messages := s.messages ++
            [{ id := now, sender := Sender.bot, text := "Error: " ++ m }],
          isSending := false }

lemma handleSendDispatch_noop (s : ChatState) (now : Nat) (uid : String)
    (h : jsTrim s.input = "" ∨ s.isSending = true) :
    handleSendDispatch s now uid = (s, none) := by
  simp [handleSendDispatch, h]

/-- Claim C2: a send call with blank input or with a send already in flight
is a no-op — same state, no outbound request — and two back-to-back send
calls before the first resolves produce exactly one outbound request, the
second call having no observable effect. -/
theorem send_single_flight :
    (∀ (s : ChatState) (now : Nat) (uid : String),
        jsTrim s.input = "" ∨ s.isSending = true →
        handleSendDispatch s now uid = (s, none)) ∧
    (∀ (s : ChatState) (now1 now2 : Nat) (uid : String),
        jsTrim s.input ≠ "" → s.isSending = false →
        (handleSendDispatch s now1 uid).2.isSome = true ∧
        handleSendDispatch (handleSendDispatch s now1 uid).1 now2 uid
          = ((handleSendDispatch s now1 uid).1, none)) := by
  constructor
  · intro s now uid h
    exact handleSendDispatch_noop s now uid h
  · intro s now1 now2 uid h1 h2
    have hcond : ¬ (jsTrim s.input = "" ∨ s.isSending = true) := by
      simp [h1, h2]
    constructor
    · simp [handleSendDispatch, hcond]
    · have hfst : (handleSendDispatch s now1 uid).1.isSending = true := by
        simp [handleSendDispatch, hcond]
      exact handleSendDispatch_noop _ now2 uid (Or.inr hfst)

/-- Witness for send_single_flight: both guards exercised on concrete
states — a whitespace-only input is rejected, and a second call right after
a dispatched first call issues nothing. -/
theorem send_single_flight_witness :
    handleSendDispatch { messages := [], input := "   ", isSending := false } 5 "u1"
      = ({ messages := [], input := "   ", isSending := false }, none) ∧
    (handleSendDispatch { messages := [], input := "hi", isSending := false } 6 "u1").2.isSome
      = true ∧
    handleSendDispatch
        (handleSendDispatch { messages := [], input := "hi", isSending := false } 6 "u1").1
        7 "u1"
      = ((handleSendDispatch { messages := [], input := "hi", isSending := false } 6 "u1").1,
         none) :=
  ⟨send_single_flight.1 { messages := [], input := "   ", isSending := false } 5 "u1"
      (Or.inl (by decide)),
   (send_single_flight.2 { messages := [], input := "hi", isSending := false } 6 7 "u1"
      (by decide) rfl).1,
   (send_single_flight.2 { messages := [], input := "hi", isSending := false } 6 7 "u1"
      (by decide) rfl).2⟩

/-- Claim C7: the sending flag is false after a dispatched send resolves, on
every exit path — success or failure (a thrown exception lands in the same
catch / finally) — and a call rejected before dispatch leaves the flag
exactly as it was. -/
theorem sending_always_resets :
    (∀ (s : ChatState) (now : Nat) (o : ChatOutcome),
        (applyChatResolution s now o).isSending = false) ∧
    (∀ (s : ChatState) (now : Nat) (uid : String),
        jsTrim s.input = "" ∨ s.isSending = true →
        ((handleSendDispatch s now uid).1).isSending = s.isSending) := by
  constructor
  · intro s now o
    cases o <;> rfl
  · intro s now uid h
    simp [handleSendDispatch, h]

/-- Witness for sending_always_resets: a concrete failure resolution ends
with isSending false, and a rejected call (send already in flight) keeps
the flag of the in-flight send. -/
theorem sending_always_resets_witness :
    (applyChatResolution { messages := [], input := "", isSending := true } 9
        (ChatOutcome.failure "boom")).isSending = false ∧
    ((handleSendDispatch { messages := [], input := "again", isSending := true } 9 "u").1).isSending
      = ({ messages := [], input := "again", isSending := true } : ChatState).isSending :=
  ⟨sending_always_resets.1 { messages := [], input := "", isSending := true } 9
      (ChatOutcome.failure "boom"),
   sending_always_resets.2 { messages := [], input := "again", isSending := true } 9 "u"
      (Or.inr rfl)⟩

/-!
The home-dashboard ChatWidget (home.tsx) and the lib/chat transport
(part_004): messages carry only role and text, conversation_id is optional
in the response, and the widget stores it only when truthy.
-/

/-- Embeds the home.tsx ChatMessage type (role and text only). -/
structure HomeMsg where
  role : Sender
  text : String
deriving DecidableEq, Repr

/-- Embeds the home.tsx ChatWidget state. -/
structure HomeChatState where
  messages : List HomeMsg
  input : String
  isSending : Bool
  conversationId : Option String := none
deriving DecidableEq, Repr

/-- Embeds the ChatApiRequest of lib/chat. -/
structure ChatApiRequest where
  message : String
  userId : String
  conversationId : Option String := none
deriving DecidableEq, Repr

/-- Embeds the body construction of sendChatMessage (part_004 lines 19-23):
conversation_id is spread into the body only when the stored token is
truthy. -/
def sendChatMessageBody (p : ChatApiRequest) : ChatRequestPayload :=
  { message := p.message, user_id := p.userId,
    conversation_id :=
      match p.conversationId with
      | some c => if c ≠ "" then some c else none
      | none => none }

/-- Embeds the synchronous prefix of handleSend in the home.tsx ChatWidget:
guard on blank input or in-flight send, clear the input, append the user
message, set isSending, and issue the request with
getActiveUserId() falling back to "anonymous" when empty. -/
def homeSendDispatch (s : HomeChatState) (uid : String) :
    HomeChatState × Option ChatApiRequest :=
  let text := jsTrim s.input
  if text = "" ∨ s.isSending = true then (s, none)
  else
    ({ s with
        input := "",
        messages := s.messages ++ [{ role := Sender.user, text := text }],
        isSending := true },
     some { message := text,
            userId := if uid = "" then "anonymous" else uid,
            conversationId := s.conversationId })

/-- Resolution of a home-widget send: sendChatMessage either returns the
parsed ChatApiResponse or throws. -/
inductive HomeChatOutcome where
  | success (r : ChatApiResponse)
  | failure (errMsg : String)
deriving DecidableEq, Repr

/-- Embeds the try / catch / finally tail of handleSend in home.tsx: on
success store conversation_id only when it is truthy
(`if (response.conversation_id)`), append the formatted reply as one bot
message; on failure append one error-marked bot message; the finally block
clears isSending in both cases. -/
def applyHomeChatResolution (s : HomeChatState) (o : HomeChatOutcome) : HomeChatState :=
  match o with
  | HomeChatOutcome.success r =>
      { s with
          conversationId :=
            match r.conversation_id with
            | some c => if c ≠ "" then some c else s.conversationId
            | none => s.conversationId,
          messages := s.messages ++ [{ role := Sender.bot, text := libFormatChatReply r }],
          isSending := false }
  | HomeChatOutcome.failure m =>
      { s with
          messages := s.messages ++ [{ role := Sender.bot, text := "Error: " ++ m }],
          isSending := false }

/-- Claim C10: the chat message history is append-only — every controller
operation (send dispatch, success append, failure append, in both the
Chatbot and the home-widget variants) extends the message sequence at the
end, leaving every previously stored message unchanged in content and
position. -/
theorem history_append_only :
    (∀ (s : ChatState) (now : Nat) (uid : String),
        ∃ t, ((handleSendDispatch s now uid).1).messages = s.messages ++ t) ∧
    (∀ (s : ChatState) (now : Nat) (o : ChatOutcome),
        ∃ t, (applyChatResolution s now o).messages = s.messages ++ t) ∧
    (∀ (s : HomeChatState) (uid : String),
        ∃ t, ((homeSendDispatch s uid).1).messages = s.messages ++ t) ∧
    (∀ (s : HomeChatState) (o : HomeChatOutcome),
        ∃ t, (applyHomeChatResolution s o).messages = s.messages ++ t) := by
  refine ⟨?_, ?_, ?_, ?_⟩
  · intro s now uid
    by_cases h : jsTrim s.input = "" ∨ s.isSending = true
    · exact ⟨[], by simp [handleSendDispatch, h]⟩
    · exact ⟨[{ id := now, sender := Sender.user, text := jsTrim s.input }],
        by simp [handleSendDispatch, h]⟩
  · intro s now o
    cases o with
    | success r =>
        exact ⟨[{ id := now, sender := Sender.bot, text := formatChatReply r }], rfl⟩
    | failure m =>
        exact ⟨[{ id := now, sender := Sender.bot, text := "Error: " ++ m }], rfl⟩
  · intro s uid
    by_cases h : jsTrim s.input = "" ∨ s.isSending = true
    · exact ⟨[], by simp [homeSendDispatch, h]⟩
    · exact ⟨[{ role := Sender.user, text := jsTrim s.input }],
        by simp [homeSendDispatch, h]⟩
  · intro s o
    cases o with
    | success r =>
        exact ⟨[{ role := Sender.bot, text := libFormatChatReply r }], rfl⟩
    | failure m =>
        exact ⟨[{ role := Sender.bot, text := "Error: " ++ m }], rfl⟩

/-!
Response validation of the two chat transports.
-/

/-- The JSON-decoded chat response body before validation
(Partial of ChatResponsePayload in chat-api.ts): every field may be absent. -/
structure RawChatResponse where
  message : Option String := none
  success : Option Bool := none
  conversation_id : Option String := none
  suggestions : Option (List String) := none
  requires_confirmation : Option Bool := none
  agent_actions : Option (List String) := none
deriving DecidableEq, Repr

/-- Embeds the response validation of requestChatReply (chat-api.ts lines
88-103): when message or conversation_id is not a string the function throws
"Chat response was malformed."; otherwise it coerces success and
requires_confirmation with Boolean() (absent means false) and defaults the
optional lists to null. -/
def validateChatReply (data : RawChatResponse) : Except String ChatResponsePayload :=
  match data.message, data.conversation_id with
  | some m, some cid =>
      Except.ok
        { message := m,
          success := data.success.getD false,
          conversation_id := cid,
          suggestions := data.suggestions,
          requires_confirmation := data.requires_confirmation.getD false,
          agent_actions := data.agent_actions }
  | _, _ => Except.error "Chat response was malformed."

/-- Embeds the ok-path response handling of sendChatMessage (part_004 lines
52-56): any parsed JSON object is returned as-is — no field of the response
is validated — and only a body that is not an object is rejected. -/
def acceptChatApiResponse (parsed : Option ChatApiResponse) :
    Except String ChatApiResponse :=
  match parsed with
  | some r => Except.ok r
  | none => Except.error "Chat service returned an unexpected response."

/-- A successful backend reply that carries no conversation_id. -/
def noCidResponse : RawChatResponse :=
  { message := some "Done", success := some true }

/-- Counterexample to claim C9: on the chatbot.tsx / chat-api.ts path a
response without conversation_id IS treated as a failure — requestChatReply
rejects it as malformed, so the catch branch appends an error message
instead of completing the send as a success with the reply appended. -/
theorem missing_conversation_id_is_malformed :
    validateChatReply noCidResponse = Except.error "Chat response was malformed." := by
  rfl

/-- Claim C9 as amended: a returned conversation_id is stored and echoed on
the next request in both chat paths; on the home.tsx / lib-chat path a
response without conversation_id is accepted without crash and without
failure (reply appended as a success, no continuity tracked); but on the
chatbot.tsx / chat-api.ts path a missing conversation_id makes the response
malformed, so that send resolves through the failure branch. -/
theorem conversation_id_continuity :
    (∀ (s : ChatState) (now : Nat) (r : ChatResponsePayload),
        (applyChatResolution s now (ChatOutcome.success r)).conversationId
          = some r.conversation_id) ∧
    (∀ (m uid c : String), c ≠ "" →
        (buildChatPayload m uid (some c)).conversation_id = some c) ∧
    (∀ (p : ChatApiRequest) (c : String), p.conversationId = some c → c ≠ "" →
        (sendChatMessageBody p).conversation_id = some c) ∧
    (∀ r : ChatApiResponse, acceptChatApiResponse (some r) = Except.ok r) ∧
    (∀ (s : HomeChatState) (r : ChatApiResponse), r.conversation_id = none →
        (applyHomeChatResolution s (HomeChatOutcome.success r)).conversationId
            = s.conversationId ∧
        (applyHomeChatResolution s (HomeChatOutcome.success r)).messages
            = s.messages ++ [{ role := Sender.bot, text := libFormatChatReply r }] ∧
        (applyHomeChatResolution s (HomeChatOutcome.success r)).isSending = false) ∧
    (∀ raw : RawChatResponse, raw.conversation_id = none →
        validateChatReply raw = Except.error "Chat response was malformed.") := by
  refine ⟨?_, ?_, ?_, ?_, ?_, ?_⟩
  · intro s now r
    rfl
  · intro m uid c hc
    simp [buildChatPayload, hc]
  · intro p c hp hc
    simp [sendChatMessageBody, hp, hc]
  · intro r
    rfl
  · intro s r hr
    refine ⟨?_, rfl, rfl⟩
    simp [applyHomeChatResolution, hr]
  · intro raw hraw
    cases hm : raw.message <;> simp [validateChatReply, hm, hraw]

/-- Witness for conversation_id_continuity: a concrete stored token is
echoed, and a concrete home-path response without conversation_id resolves
as a success that leaves continuity untracked. -/
theorem conversation_id_continuity_witness :
    (buildChatPayload "hi" "u1" (some "abc123")).conversation_id = some "abc123" ∧
    (applyHomeChatResolution { messages := [], input := "", isSending := true }
        (HomeChatOutcome.success { message := some "Done", success := true })).conversationId
      = ({ messages := [], input := "", isSending := true } : HomeChatState).conversationId :=
  ⟨conversation_id_continuity.2.1 "hi" "u1" "abc123" (by decide),
   (conversation_id_continuity.2.2.2.2.1
      { messages := [], input := "", isSending := true }
      { message := some "Done", success := true } rfl).1⟩

/-!
Range Data Loader (the loadEvents effect of Calendar.tsx).  Each effect run
creates an AbortController, starts loadEvents (setIsLoading(true),
setError(null), awaited fetch, then the try / catch / finally tail), and its
cleanup aborts the controller before the next effect issues the next load.

Platform contract used by the embedding: the JS event loop runs each task
and its microtask continuations to completion, and aborting an
AbortController rejects a still-pending fetch; hence a load whose signal was
aborted before its continuation ran can only resolve through the catch
branch (an abort or other rejection), never through the success branch.
The theorems carry this as the explicit hypothesis that a superseded
resolution is not a success.
-/

/-- The loader-owned observable state of Calendar.tsx: the event collection,
the loading flag and the error banner text. -/
structure LoaderState where
  events : List CalEvent
  isLoading : Bool
  error : Option String
deriving DecidableEq, Repr

/-- Resolution of an awaited fetchCalendarEvents call: the normalized event
list on success, or the thrown error message (including an abort rejection)
on failure. -/
inductive FetchOutcome where
  | success (events : List CalEvent)
  | failure (msg : String)
deriving DecidableEq, Repr

/-- Embeds the synchronous prefix of loadEvents:
setIsLoading(true); setError(null). -/
def beginLoad (s : LoaderState) : LoaderState :=
  { s with isLoading := true, error := none }

/-- Embeds the try / catch / finally tail of loadEvents, evaluated with the
value of controller.signal.aborted at the moment the continuation runs: the
success branch stores the normalized events (it has no abort check); the
catch branch returns silently when aborted, otherwise it stores the error
message and clears the events; the finally branch clears isLoading only
when not aborted. -/
def applyResolution (aborted : Bool) (o : FetchOutcome) (s : LoaderState) : LoaderState :=
  match o with
  | FetchOutcome.success evs =>
      let s1 := { s with events := evs }
      if aborted then s1 else { s1 with isLoading := false }
  | FetchOutcome.failure msg =>
      if aborted then s
      else { events := [], isLoading := false, error := some msg }

/-- The loader together with its pending requests; each pending entry is the
request id paired with the aborted flag of its AbortController signal. -/
structure LoaderSystem where
  loader : LoaderState
  pending : List (Nat × Bool)
deriving DecidableEq, Repr

/-- Issuing a new load (a navigation change): the cleanup of the previous
effect aborts its controller — marking every still-pending request aborted —
then the new effect registers its own controller and runs the loadEvents
prefix. -/
def issueLoad (sys : LoaderSystem) (id : Nat) : LoaderSystem :=
  { loader := beginLoad sys.loader,
    pending := (id, false) :: sys.pending.map (fun p => (p.1, true)) }

/-- Resolving a pending load: its continuation runs with the recorded
aborted flag and the loader state is updated by the try / catch / finally
tail. -/
def resolveLoad (sys : LoaderSystem) (id : Nat) (aborted : Bool) (o : FetchOutcome) :
    LoaderSystem :=
  { loader := applyResolution aborted o sys.loader,
    pending := sys.pending.filter (fun p => p.1 ≠ id) }

/-- Claim C1: a superseded (aborted) load's eventual resolution — which by
the fetch/abort contract cannot be a success — changes no observable state;
in particular, issuing a load for month M1, then a load for month M2 which
aborts M1, resolving M2, and only then resolving M1, leaves the loader
exactly in the state produced by M2: events of M2, not loading, no error. -/
theorem superseded_load_discarded :
    (∀ (s : LoaderState) (o : FetchOutcome),
        (∀ evs, o ≠ FetchOutcome.success evs) →
        applyResolution true o s = s) ∧
    (∀ (sys : LoaderSystem) (id1 id2 : Nat) (evs2 : List CalEvent) (o : FetchOutcome),
        id1 ≠ id2 →
        (∀ evs, o ≠ FetchOutcome.success evs) →
        (id1, true) ∈ (resolveLoad (issueLoad (issueLoad sys id1) id2) id2 false
            (FetchOutcome.success evs2)).pending ∧
        (resolveLoad (resolveLoad (issueLoad (issueLoad sys id1) id2) id2 false
              (FetchOutcome.success evs2)) id1 true o).loader
          = (resolveLoad (issueLoad (issueLoad sys id1) id2) id2 false
              (FetchOutcome.success evs2)).loader ∧
        (resolveLoad (issueLoad (issueLoad sys id1) id2) id2 false
              (FetchOutcome.success evs2)).loader
          = { events := evs2, isLoading := false, error := none }) := by
  have hnoop : ∀ (s : LoaderState) (o : FetchOutcome),
      (∀ evs, o ≠ FetchOutcome.success evs) → applyResolution true o s = s := by
    intro s o h
    cases o with
    | success evs => exact absurd rfl (h evs)
    | failure msg => rfl
  refine ⟨hnoop, ?_⟩
  intro sys id1 id2 evs2 o hne hno
  refine ⟨?_, ?_, ?_⟩
  · simp [resolveLoad, issueLoad, List.mem_filter, hne]
  · exact hnoop _ o hno
  · rfl

/-- Witness for superseded_load_discarded: the concrete M1/M2 race — load 1
issued, load 2 issued (aborting load 1), load 2 resolves with one event,
then load 1 resolves with an abort rejection — leaves the loader exactly in
the M2 state. -/
theorem superseded_load_discarded_witness :
    (resolveLoad (resolveLoad (issueLoad (issueLoad
          { loader := { events := [], isLoading := false, error := none }, pending := [] }
          1) 2) 2 false
          (FetchOutcome.success [{ id := "e2", title := "M2", start := JSDate.valid 2025 1 3 }]))
        1 true (FetchOutcome.failure "The user aborted a request.")).loader
      = { events := [{ id := "e2", title := "M2", start := JSDate.valid 2025 1 3 }],
          isLoading := false, error := none } :=
  ((superseded_load_discarded.2
      { loader := { events := [], isLoading := false, error := none }, pending := [] }
      1 2 [{ id := "e2", title := "M2", start := JSDate.valid 2025 1 3 }]
      (FetchOutcome.failure "The user aborted a request.")
      (by decide) (fun evs h => by cases h)).2.1).trans
    ((superseded_load_discarded.2
      { loader := { events := [], isLoading := false, error := none }, pending := [] }
      1 2 [{ id := "e2", title := "M2", start := JSDate.valid 2025 1 3 }]
      (FetchOutcome.failure "The user aborted a request.")
      (by decide) (fun evs h => by cases h)).2.2)

end SmartAssistant
